import Mathlib

/-!
Verification of the eye-break browser extension (src/public/background.js and
src/src/App.tsx): the settings store, the alarm reconciliation logic run at
startup and on save, and the alarm-fired notification handler, embedded as
pure Lean functions over an explicit store and alarm state.
-/

namespace EyeBreak

/-- The fixed alarm identifier used throughout the source. -/
def alarmName : String := "eye-break-notification"

/-- A JavaScript value appearing where a number is expected. In
`startupHandler` the source binds `const interval = getInterval();` without
`await`, so the value passed as `periodInMinutes` is a pending Promise
object, not the number it would resolve to; `promiseNum r` records such an
un-awaited Promise whose resolved value would be `r`. -/
inductive JSNumber
  | num (n : Nat)
  | promiseNum (resolvesTo : Nat)
deriving DecidableEq, Repr

/-- An installed recurring alarm: its `periodInMinutes` argument as passed to
`browser.alarms.create`, and the host-assigned `scheduledTime` of its next
fire. -/
structure Alarm where
  periodInMinutes : JSNumber
  scheduledTime : Nat
deriving DecidableEq, Repr

/-- At most one alarm (the single fixed name) exists at a time. -/
abbrev AlarmState := Option Alarm

/-- Observable host-facility calls made by a handler, in order. -/
inductive Effect
  | clearAlarm
  | createAlarm (periodInMinutes : JSNumber)
  | notify (title : String) (message : String)
  | logError (msg : String)
deriving DecidableEq, Repr

/-- The persistent key/value store: three independent keys, each possibly
absent. -/
structure Store where
  enabled? : Option Bool
  interval? : Option Nat
  message? : Option String
deriving DecidableEq, Repr

/-- `browser.storage.local` with all three keys absent. -/
def emptyStore : Store := ⟨none, none, none⟩

/-- `getEnabled` from the source: the stored value, or `false` when the
`enabled` key is absent. -/
def getEnabled (s : Store) : Bool :=
  match s.enabled? with
  | none => false
  | some v => v

/-- `getInterval` from the source: the stored value, or `20` when the
`interval` key is absent. -/
def getInterval (s : Store) : Nat :=
  match s.interval? with
  | none => 20
  | some v => v

/-- `getMessage` from the source: the stored value, or the default string
when the `message` key is absent. -/
def getMessage (s : Store) : String :=
  match s.message? with
  | none => "Time to give your eyes a break!"
  | some v => v

/-- `setEnabled` from the source: overwrite the `enabled` key. -/
def setEnabled (s : Store) (v : Bool) : Store :=
  { s with enabled? := some v }

/-- `setIntervalStorage` from the source: overwrite the `interval` key. -/
def setIntervalStorage (s : Store) (v : Nat) : Store :=
  { s with interval? := some v }

/-- `setMessage` from the source: overwrite the `message` key. -/
def setMessage (s : Store) (v : String) : Store :=
  { s with message? := some v }

/-- `browser.alarms.clear(name)`: removes the alarm if present, no-op
otherwise. -/
def alarmsClear (_ : AlarmState) : AlarmState := none

/-- `browser.alarms.create(name, {periodInMinutes})`: installs the recurring
alarm with the given period argument; `sched` is the host-assigned
`scheduledTime` of the first fire. -/
def alarmsCreate (period : JSNumber) (sched : Nat) (_ : AlarmState) : AlarmState :=
  some ⟨period, sched⟩

/-- A pending Promise as bound by a `const x = f();` line with no `await`:
`resolvesTo` is the value the Promise would resolve to. -/
structure Promise (α : Type) where
  resolvesTo : α

/-- In JavaScript every object, a pending Promise included, is truthy: the
condition `if (enabled)` on an un-awaited Promise always takes the then
branch. -/
def Promise.truthy {α : Type} (_ : Promise α) : Bool := true

/-- `startupHandler` from src/public/background.js. The source binds
`const enabled = getEnabled();` and `const interval = getInterval();`
without `await`, so `enabled` is a truthy Promise object (the branch is
always taken) and `interval` is a Promise object passed as
`periodInMinutes`. Returns the resulting alarm state and the host calls
made. -/
def startupHandler (s : Store) (sched : Nat) (a : AlarmState) :
    AlarmState × List Effect :=
  let enabled : Promise Bool := ⟨getEnabled s⟩
  if enabled.truthy then
    let interval : Promise Nat := ⟨getInterval s⟩
    let a1 := alarmsClear a
    let a2 := alarmsCreate (JSNumber.promiseNum interval.resolvesTo) sched a1
    (a2, [Effect.clearAlarm,
          Effect.createAlarm (JSNumber.promiseNum interval.resolvesTo)])
  else (a, [])

/-- What the startup handler would compute with the missing `await`s in
place, i.e. the spec's reading of it: read `enabled`; if true, read
`interval`, clear, then create with that interval; if false, do nothing. -/
def startupHandlerIntended (s : Store) (sched : Nat) (a : AlarmState) :
    AlarmState × List Effect :=
  if getEnabled s then
    let interval := getInterval s
    let a1 := alarmsClear a
    let a2 := alarmsCreate (JSNumber.num interval) sched a1
    (a2, [Effect.clearAlarm, Effect.createAlarm (JSNumber.num interval)])
  else (a, [])

/-- Result of `handleSave` from src/src/App.tsx: the store after the three
writes, the resulting alarm state, and the alarm host calls made. -/
structure SaveResult where
  store : Store
  alarm : AlarmState
  effects : List Effect
deriving DecidableEq, Repr

/-- `handleSave` from src/src/App.tsx. `enabled`, `interval`, `message` are
the local UI state being saved; the previous persisted values are read (with
`await`) before the writes, then compared with strict inequality; on any
difference the alarm is cleared and, only when the new `enabled` is true,
recreated with the new `interval`. `sched` is the host-assigned
`scheduledTime` for a created alarm. -/
def handleSave (enabled : Bool) (interval : Nat) (message : String)
    (s : Store) (a : AlarmState) (sched : Nat) : SaveResult :=
  let prevEnabled := getEnabled s
  let prevInterval := getInterval s
  let prevMessage := getMessage s
  let s1 := setEnabled s enabled
  let s2 := setIntervalStorage s1 interval
  let s3 := setMessage s2 message
  if prevEnabled ≠ enabled ∨ prevInterval ≠ interval ∨ prevMessage ≠ message then
    let a1 := alarmsClear a
    if enabled then
      let a2 := alarmsCreate (JSNumber.num interval) sched a1
      ⟨s3, a2, [Effect.clearAlarm, Effect.createAlarm (JSNumber.num interval)]⟩
    else
      ⟨s3, a1, [Effect.clearAlarm]⟩
  else
    ⟨s3, a, []⟩

/-- `alarmHandler` from src/public/background.js: on a fired alarm carrying
`firedName`, log a diagnostic when the name is unexpected, then read the
current message and create the notification. Returns the host calls made,
in order. -/
def alarmHandler (firedName : String) (s : Store) : List Effect :=
  (if firedName ≠ alarmName
   then [Effect.logError ("Unexpected alarm name: " ++ firedName)]
   else [])
  ++ [Effect.notify "Eye Break!" (getMessage s)]

/-- `getNextAlarmTime` from src/src/App.tsx: the alarm's `scheduledTime`, or
the sentinel `0` when `browser.alarms.get` returns `undefined`. -/
def getNextAlarmTime (a : AlarmState) : Nat :=
  match a with
  | none => 0
  | some alarm => alarm.scheduledTime

/-- The `nextTime` value the UI stores: `scheduledTime - currentTime` (may be
negative). -/
def nextTimeValue (a : AlarmState) (now : Nat) : Int :=
  (getNextAlarmTime a : Int) - (now : Int)

/-- The render condition `nextTime > 0 && ...` guarding the countdown box. -/
def showsCountdown (a : AlarmState) (now : Nat) : Bool :=
  decide (0 < nextTimeValue a now)

/-- The whole background state: the persisted store and the alarm state. -/
abbrev Sys := Store × AlarmState

/-- States reachable from the initial state (empty store, no alarm) by any
sequence of startup and save-path reconciliations. -/
inductive Reachable : Sys → Prop
  | init : Reachable (emptyStore, none)
  | startup {s : Store} {a : AlarmState} (sched : Nat) (h : Reachable (s, a)) :
      Reachable (s, (startupHandler s sched a).1)
  | save {s : Store} {a : AlarmState}
      (e : Bool) (i : Nat) (m : String) (sched : Nat) (h : Reachable (s, a)) :
      Reachable ((handleSave e i m s a sched).store, (handleSave e i m s a sched).alarm)

/-- Whether an effect is a notification display call. -/
def Effect.isNotify : Effect → Bool
  | Effect.notify _ _ => true
  | _ => false

/-- The store after `handleSave` always holds the three saved values,
whichever branch was taken. -/
theorem handleSave_store (e : Bool) (i : Nat) (m : String)
    (s : Store) (a : AlarmState) (t : Nat) :
    (handleSave e i m s a t).store = ⟨some e, some i, some m⟩ := by
  by_cases hc : getEnabled s ≠ e ∨ getInterval s ≠ i ∨ getMessage s ≠ m <;>
    by_cases he : e = true <;>
      simp [handleSave, hc, he, setEnabled, setIntervalStorage, setMessage] <;>
        split <;> rfl

/-- C1: the claimed invariant ("no alarm exists when persisted `enabled` is
false") fails on the code: already after a single startup from the initial
state (where `enabled` is absent, hence false) an alarm exists, because
`startupHandler` tests an un-awaited Promise which is always truthy. -/
theorem C1_invariant_fails :
    ∃ st : Sys, Reachable st ∧ getEnabled st.1 = false ∧ st.2 ≠ none := by
  refine ⟨(emptyStore, (startupHandler emptyStore 0 none).1),
    Reachable.startup 0 Reachable.init, rfl, ?_⟩
  simp [startupHandler, Promise.truthy, alarmsClear, alarmsCreate]

/-- C2: with persisted `enabled = false`, the startup handler does not leave
things untouched: it clears and then creates an alarm anyway, because the
un-awaited `getEnabled()` Promise is truthy. -/
theorem C2_startup_disabled_still_acts :
    getEnabled ⟨some false, none, none⟩ = false ∧
    (startupHandler ⟨some false, none, none⟩ 0 none).2 =
      [Effect.clearAlarm, Effect.createAlarm (JSNumber.promiseNum 20)] ∧
    (startupHandler ⟨some false, none, none⟩ 0 none).1 =
      some ⟨JSNumber.promiseNum 20, 0⟩ :=
  ⟨rfl, rfl, rfl⟩

/-- C3: with persisted `enabled = true` and `interval = 5`, the startup
handler does clear then create, but the `periodInMinutes` it passes is the
un-awaited `getInterval()` Promise, not the stored number 5. -/
theorem C3_startup_period_is_promise :
    getEnabled ⟨some true, some 5, none⟩ = true ∧
    (startupHandler ⟨some true, some 5, none⟩ 0 none).2 =
      [Effect.clearAlarm, Effect.createAlarm (JSNumber.promiseNum 5)] ∧
    (startupHandler ⟨some true, some 5, none⟩ 0 none).1 =
      some ⟨JSNumber.promiseNum 5, 0⟩ ∧
    JSNumber.promiseNum 5 ≠ JSNumber.num 5 :=
  ⟨rfl, rfl, rfl, by decide⟩

/-- C4: saving values equal to the three currently persisted values performs
no alarm clear and no create and leaves the alarm (scheduledTime included)
untouched; in particular the second of two consecutive identical saves
leaves the alarm of the first untouched and makes no alarm host call. -/
theorem C4_save_idempotent (e : Bool) (i : Nat) (m : String)
    (s : Store) (a : AlarmState) (t1 t2 : Nat) :
    ((handleSave (getEnabled s) (getInterval s) (getMessage s) s a t1).alarm = a ∧
     (handleSave (getEnabled s) (getInterval s) (getMessage s) s a t1).effects = []) ∧
    ((handleSave e i m (handleSave e i m s a t1).store
        (handleSave e i m s a t1).alarm t2).alarm = (handleSave e i m s a t1).alarm ∧
     (handleSave e i m (handleSave e i m s a t1).store
        (handleSave e i m s a t1).alarm t2).effects = []) := by
  constructor
  · constructor <;> simp [handleSave]
  · rw [handleSave_store e i m s a t1]
    constructor <;> simp [handleSave, getEnabled, getInterval, getMessage]

/-- C5: a save that turns `enabled` from false (persisted) to true ends with
exactly one alarm whose `periodInMinutes` is the saved interval. -/
theorem C5_enable_transition (i : Nat) (m : String) (s : Store) (a : AlarmState)
    (sched : Nat) (h : getEnabled s = false) :
    (handleSave true i m s a sched).alarm = some ⟨JSNumber.num i, sched⟩ := by
  simp [handleSave, h, alarmsClear, alarmsCreate]

/-- Witness for C5 at the empty store. -/
theorem C5_witness :
    getEnabled emptyStore = false ∧
    (handleSave true 5 "hi" emptyStore none 0).alarm = some ⟨JSNumber.num 5, 0⟩ :=
  ⟨rfl, C5_enable_transition 5 "hi" emptyStore none 0 rfl⟩

/-- C6: a save that turns `enabled` from true (persisted) to false ends with
no alarm: it is cleared and not recreated. -/
theorem C6_disable_transition (i : Nat) (m : String) (s : Store) (a : AlarmState)
    (sched : Nat) (h : getEnabled s = true) :
    (handleSave false i m s a sched).alarm = none := by
  simp [handleSave, h, alarmsClear]

/-- Witness for C6 at a store with `enabled = true`. -/
theorem C6_witness :
    getEnabled ⟨some true, none, none⟩ = true ∧
    (handleSave false 20 "hi" ⟨some true, none, none⟩
      (some ⟨JSNumber.num 20, 3⟩) 0).alarm = none :=
  ⟨rfl, C6_disable_transition 20 "hi" ⟨some true, none, none⟩
    (some ⟨JSNumber.num 20, 3⟩) 0 rfl⟩

/-- C7: a save changing only `message` while `enabled` stays true and
`interval` is unchanged still performs the clear-then-create cycle, and
afterwards exactly one alarm exists with the unchanged interval as its
`periodInMinutes`. -/
theorem C7_message_only_change (m : String) (s : Store) (a : AlarmState)
    (sched : Nat) (he : getEnabled s = true) (hm : getMessage s ≠ m) :
    (handleSave true (getInterval s) m s a sched).effects =
      [Effect.clearAlarm, Effect.createAlarm (JSNumber.num (getInterval s))] ∧
    (handleSave true (getInterval s) m s a sched).alarm =
      some ⟨JSNumber.num (getInterval s), sched⟩ := by
  constructor <;> simp [handleSave, he, hm, alarmsClear, alarmsCreate]

/-- Witness for C7: only the message changes, from the default to "x". -/
theorem C7_witness :
    getEnabled ⟨some true, some 4, none⟩ = true ∧
    getMessage ⟨some true, some 4, none⟩ ≠ "x" ∧
    (handleSave true 4 "x" ⟨some true, some 4, none⟩
        (some ⟨JSNumber.num 4, 9⟩) 0).effects =
      [Effect.clearAlarm, Effect.createAlarm (JSNumber.num 4)] ∧
    (handleSave true 4 "x" ⟨some true, some 4, none⟩
        (some ⟨JSNumber.num 4, 9⟩) 0).alarm = some ⟨JSNumber.num 4, 0⟩ := by
  have h := C7_message_only_change "x" ⟨some true, some 4, none⟩
    (some ⟨JSNumber.num 4, 9⟩) 0 rfl (by decide)
  exact ⟨rfl, by decide, h.1, h.2⟩

/-- C8: on every fired alarm the handler produces exactly one notification,
with title "Eye Break!" and the currently persisted message; when the fired
name is unexpected a diagnostic is additionally logged first, but the
notification proceeds identically. -/
theorem C8_alarm_fire_notifies (firedName : String) (s : Store) :
    (alarmHandler firedName s).filter Effect.isNotify =
      [Effect.notify "Eye Break!" (getMessage s)] ∧
    (firedName ≠ alarmName →
      alarmHandler firedName s =
        [Effect.logError ("Unexpected alarm name: " ++ firedName),
         Effect.notify "Eye Break!" (getMessage s)]) := by
  constructor
  · by_cases h : firedName = alarmName <;>
      simp [alarmHandler, h, Effect.isNotify]
  · intro h
    simp [alarmHandler, h]

/-- Witness for C8 at an unexpected alarm name and the empty store. -/
theorem C8_witness :
    (alarmHandler "bogus" emptyStore).filter Effect.isNotify =
      [Effect.notify "Eye Break!" "Time to give your eyes a break!"] ∧
    alarmHandler "bogus" emptyStore =
      [Effect.logError ("Unexpected alarm name: " ++ "bogus"),
       Effect.notify "Eye Break!" "Time to give your eyes a break!"] := by
  have h := C8_alarm_fire_notifies "bogus" emptyStore
  exact ⟨h.1, h.2 (by decide)⟩

/-- C9: each getter returns its documented default when the key is absent
(`enabled` false, `interval` 20, `message` the default string) and the
stored value when present. -/
theorem C9_getter_defaults (s : Store) (b : Bool) (n : Nat) (m : String) :
    (s.enabled? = none → getEnabled s = false) ∧
    (s.enabled? = some b → getEnabled s = b) ∧
    (s.interval? = none → getInterval s = 20) ∧
    (s.interval? = some n → getInterval s = n) ∧
    (s.message? = none → getMessage s = "Time to give your eyes a break!") ∧
    (s.message? = some m → getMessage s = m) := by
  refine ⟨?_, ?_, ?_, ?_, ?_, ?_⟩ <;> intro h <;>
    simp [getEnabled, getInterval, getMessage, h]

/-- Witness for C9: all three keys absent, then all three present. -/
theorem C9_witness :
    getEnabled emptyStore = false ∧ getInterval emptyStore = 20 ∧
    getMessage emptyStore = "Time to give your eyes a break!" ∧
    getEnabled ⟨some true, some 7, some "x"⟩ = true ∧
    getInterval ⟨some true, some 7, some "x"⟩ = 7 ∧
    getMessage ⟨some true, some 7, some "x"⟩ = "x" := by
  have h1 := C9_getter_defaults emptyStore true 7 "x"
  have h2 := C9_getter_defaults ⟨some true, some 7, some "x"⟩ true 7 "x"
  exact ⟨h1.1 rfl, h1.2.2.1 rfl, h1.2.2.2.2.1 rfl,
    h2.2.1 rfl, h2.2.2.2.1 rfl, h2.2.2.2.2.2 rfl⟩

/-- C10: with no alarm installed, `getNextAlarmTime` returns the sentinel 0
(not an error or absent value), the computed countdown is non-positive, and
the UI countdown box is not rendered. -/
theorem C10_no_alarm_sentinel (now : Nat) :
    getNextAlarmTime (none : AlarmState) = 0 ∧
    nextTimeValue none now ≤ 0 ∧
    showsCountdown none now = false := by
  refine ⟨rfl, ?_, ?_⟩
  · simp [nextTimeValue, getNextAlarmTime]
  · simp [showsCountdown, nextTimeValue, getNextAlarmTime]

end EyeBreak
